import Mathlib

/-!
# Verification of the esm_message payload model (`src/data.rs`)

Shallow embedding of the repository's single source file `src/data.rs`:
the payload union `Data` with record variants `Test`, `Init`, `PostInit`,
`Query`, the `ToArma` host-value conversion of each record, the fallible
`retrieve_data!` extraction, the serde adjacently-tagged wire encoding,
and the derived `Clone`/`PartialEq` semantics of the payload types.

Conventions of the embedding:
* The host value model (`arma_rs::ArmaValue`) is external to the
  repository; it is modelled from the spec's host value description as a
  dynamically typed value with strings, numbers, booleans, ordered lists
  and string-keyed associative containers (`ArmaValue.map`).
* Rust `f32`/`f64` are carried as opaque bit patterns (`F32`/`F64`,
  a `Nat` holding the IEEE-754 encoding); no floating point arithmetic is
  performed anywhere in the source, only storage, conversion and the
  derived IEEE equality, which is modelled exactly on the bit patterns.
* `chrono::DateTime<Utc>` is modelled as a UTC civil timestamp record;
  its RFC 3339 rendering (spec section 4.1) is implemented concretely.
* Rust panics are modelled as `Except.error`.
-/

namespace Esm

/-- Bit pattern of a Rust `f32` (IEEE-754 binary32): sign bit 31,
exponent bits 30..23, mantissa bits 22..0. -/
structure F32 where
  bits : Nat
deriving DecidableEq, Repr

/-- Bit pattern of a Rust `f64` (IEEE-754 binary64): sign bit 63,
exponent bits 62..52, mantissa bits 51..0. -/
structure F64 where
  bits : Nat
deriving DecidableEq, Repr

/-- IEEE-754: a binary32 NaN has all exponent bits set and a nonzero
mantissa. -/
def F32.isNan (x : F32) : Bool :=
  decide ((x.bits / 2 ^ 23) % 2 ^ 8 = 255 ∧ x.bits % 2 ^ 23 ≠ 0)

/-- IEEE-754: binary32 zero is any bit pattern whose non-sign bits are
all clear (`+0.0` or `-0.0`). -/
def F32.isZero (x : F32) : Bool :=
  decide (x.bits % 2 ^ 31 = 0)

/-- Rust `f32::eq` (IEEE-754 equality): `NaN` is equal to nothing, and
`+0.0 == -0.0` despite distinct bit patterns. -/
def F32.beq (a b : F32) : Bool :=
  !a.isNan && !b.isNan && (a.bits == b.bits || (a.isZero && b.isZero))

/-- IEEE-754: a binary64 NaN has all exponent bits set and a nonzero
mantissa. -/
def F64.isNan (x : F64) : Bool :=
  decide ((x.bits / 2 ^ 52) % 2 ^ 11 = 2047 ∧ x.bits % 2 ^ 52 ≠ 0)

/-- IEEE-754: binary64 zero is any bit pattern whose non-sign bits are
all clear. -/
def F64.isZero (x : F64) : Bool :=
  decide (x.bits % 2 ^ 63 = 0)

/-- Rust `f64::eq` (IEEE-754 equality). -/
def F64.beq (a b : F64) : Bool :=
  !a.isNan && !b.isNan && (a.bits == b.bits || (a.isZero && b.isZero))

/-- Model of `chrono::DateTime<Utc>`: a UTC civil timestamp.
(Sub-second precision is not exercised by any payload in the source and
is omitted.) -/
structure DateTimeUtc where
  year : Nat
  month : Nat
  day : Nat
  hour : Nat
  minute : Nat
  second : Nat
deriving DecidableEq, Repr

/-- A calendar-plausible timestamp; every value `chrono` can construct
in the source's fields satisfies these bounds. -/
def DateTimeUtc.Valid (t : DateTimeUtc) : Prop :=
  t.year ≤ 9999 ∧ 1 ≤ t.month ∧ t.month ≤ 12 ∧ 1 ≤ t.day ∧ t.day ≤ 31 ∧
    t.hour ≤ 23 ∧ t.minute ≤ 59 ∧ t.second ≤ 59

instance (t : DateTimeUtc) : Decidable t.Valid :=
  inferInstanceAs (Decidable (t.year ≤ 9999 ∧ 1 ≤ t.month ∧ t.month ≤ 12 ∧
    1 ≤ t.day ∧ t.day ≤ 31 ∧ t.hour ≤ 23 ∧ t.minute ≤ 59 ∧ t.second ≤ 59))

/-- The decimal digit character for `n % 10`. -/
def digitChar (n : Nat) : Char := Char.ofNat (48 + n % 10)

/-- Numeric value of a decimal digit character. -/
def digitVal (c : Char) : Nat := c.toNat - 48

/-- Two-digit zero-padded decimal rendering. -/
def pad2 (n : Nat) : List Char := [digitChar (n / 10), digitChar n]

/-- Four-digit zero-padded decimal rendering. -/
def pad4 (n : Nat) : List Char :=
  [digitChar (n / 1000), digitChar (n / 100), digitChar (n / 10), digitChar n]

/-- Modelled from the spec: the RFC 3339 rendering of a UTC timestamp
("timestamp → ISO-8601 (RFC 3339) date-time string, timezone-normalized
to UTC") as produced by `chrono`'s serializer for `DateTime<Utc>`:
`YYYY-MM-DDTHH:MM:SS+00:00`. The concrete formatter lives in the
external `chrono` crate, not under `src/`. -/
def toRfc3339 (t : DateTimeUtc) : String :=
  String.mk (pad4 t.year ++ '-' :: pad2 t.month ++ '-' :: pad2 t.day ++
    'T' :: pad2 t.hour ++ ':' :: pad2 t.minute ++ ':' :: pad2 t.second ++
    ['+', '0', '0', ':', '0', '0'])

/-- Fixed-width RFC 3339 parser on the character list: accepts exactly
`YYYY-MM-DDTHH:MM:SS+00:00`. -/
def parseChars : List Char → Option DateTimeUtc
  | [y3, y2, y1, y0, a1, mo1, mo0, a2, d1, d0, a3, h1, h0, a4,
     mi1, mi0, a5, se1, se0, p0, p1, p2, p3, p4, p5] =>
    if (y3.isDigit && y2.isDigit && y1.isDigit && y0.isDigit &&
        mo1.isDigit && mo0.isDigit && d1.isDigit && d0.isDigit &&
        h1.isDigit && h0.isDigit && mi1.isDigit && mi0.isDigit &&
        se1.isDigit && se0.isDigit) &&
       (a1 == '-' && a2 == '-' && a3 == 'T' && a4 == ':' && a5 == ':') &&
       (p0 == '+' && p1 == '0' && p2 == '0' && p3 == ':' && p4 == '0' &&
        p5 == '0') then
      some { year := ((digitVal y3 * 10 + digitVal y2) * 10 + digitVal y1) * 10
               + digitVal y0,
             month := digitVal mo1 * 10 + digitVal mo0,
             day := digitVal d1 * 10 + digitVal d0,
             hour := digitVal h1 * 10 + digitVal h0,
             minute := digitVal mi1 * 10 + digitVal mi0,
             second := digitVal se1 * 10 + digitVal se0 }
    else
      none
  | _ => none

/-- Modelled from the spec: RFC 3339 parsing of a UTC timestamp as done
by `chrono`'s deserializer (external crate, not under `src/`). -/
def parseRfc3339 (s : String) : Option DateTimeUtc := parseChars s.data

/-- Modelled from the spec: the host value representation
(`arma_rs::ArmaValue`, external crate) — "the dynamically typed value
model of the embedding runtime (strings, numbers, booleans, lists,
string-keyed maps)". -/
inductive ArmaValue where
  | null : ArmaValue
  | str : String → ArmaValue
  | int : Int → ArmaValue
  | float32 : F32 → ArmaValue
  | float64 : F64 → ArmaValue
  | boolean : Bool → ArmaValue
  | arr : List ArmaValue → ArmaValue
  | map : List (String × ArmaValue) → ArmaValue

/-- The keys of an associative host value, in entry order. -/
def ArmaValue.keys : ArmaValue → List String
  | .map fields => fields.map Prod.fst
  | _ => []

/-- Entry lookup in an associative host value. -/
def ArmaValue.getField : ArmaValue → String → Option ArmaValue
  | .map fields, k => fields.lookup k
  | _, _ => none

/-- `pub struct Test { pub foo: String }` (src/data.rs). -/
structure Test where
  foo : String
deriving DecidableEq, Repr

/-- `pub struct Init` (src/data.rs): server bootstrap snapshot. -/
structure Init where
  server_name : String
  price_per_object : F32
  territory_lifetime : F32
  territory_data : String
  server_start_time : DateTimeUtc
  extension_version : String
deriving DecidableEq, Repr

/-- `pub struct PostInit` (src/data.rs): configuration snapshot.
Note the leading `extdb_path` field present in the source. -/
structure PostInit where
  extdb_path : String
  gambling_modifier : Int
  gambling_payout : Int
  gambling_randomizer_max : F64
  gambling_randomizer_mid : F64
  gambling_randomizer_min : F64
  gambling_win_chance : Int
  logging_add_player_to_territory : Bool
  logging_demote_player : Bool
  logging_exec : Bool
  logging_gamble : Bool
  logging_modify_player : Bool
  logging_pay_territory : Bool
  logging_promote_player : Bool
  logging_remove_player_from_territory : Bool
  logging_reward : Bool
  logging_transfer : Bool
  logging_upgrade_territory : Bool
  max_payment_count : Int
  territory_payment_tax : Int
  territory_upgrade_tax : Int
  territory_admins : List String
deriving DecidableEq, Repr

/-- `pub struct Query { pub name: String, pub arguments: HashMap<String,
String> }` (src/data.rs). The `HashMap` is modelled as an association
list; the source's map invariant is key uniqueness. -/
structure Query where
  name : String
  arguments : List (String × String)
deriving DecidableEq, Repr

/-- `pub enum Data { Empty, Test(Test), Init(Init), PostInit(PostInit),
Query(Query) }` (src/data.rs). -/
inductive Data where
  | Empty : Data
  | Test : Test → Data
  | Init : Init → Data
  | PostInit : PostInit → Data
  | Query : Query → Data
deriving DecidableEq, Repr

/-- The variant discriminator of a `Data` value. -/
inductive VariantTag where
  | Empty | Test | Init | PostInit | Query
deriving DecidableEq, Repr

/-- Which variant a `Data` value carries. -/
def Data.tag : Data → VariantTag
  | .Empty => .Empty
  | .Test _ => .Test
  | .Init _ => .Init
  | .PostInit _ => .PostInit
  | .Query _ => .Query

/-- The variant's identifier as written in the source (used by the
derived `Debug` rendering and by `stringify!`). -/
def VariantTag.name : VariantTag → String
  | .Empty => "Empty"
  | .Test => "Test"
  | .Init => "Init"
  | .PostInit => "PostInit"
  | .Query => "Query"

/-- The variant's serde tag under `rename_all = "snake_case"`. -/
def snakeTag : VariantTag → String
  | .Empty => "empty"
  | .Test => "test"
  | .Init => "init"
  | .PostInit => "post_init"
  | .Query => "query"

/-- `impl ToArma for Test` (src/data.rs):
`arma_value!({ "foo": self.foo })`. -/
def Test.to_arma (t : Test) : ArmaValue :=
  .map [("foo", .str t.foo)]

/-- `impl ToArma for Init` (src/data.rs): one entry per field, keyed by
the field's own name, in source order; the timestamp is rendered by the
field value mapping as its RFC 3339 string. -/
def Init.to_arma (i : Init) : ArmaValue :=
  .map [("server_name", .str i.server_name),
        ("price_per_object", .float32 i.price_per_object),
        ("territory_lifetime", .float32 i.territory_lifetime),
        ("territory_data", .str i.territory_data),
        ("server_start_time", .str (toRfc3339 i.server_start_time)),
        ("extension_version", .str i.extension_version)]

/-- `impl ToArma for PostInit` (src/data.rs): one entry per field, keyed
by the field's own name, in source order — 22 entries, starting with
`extdb_path`. -/
def PostInit.to_arma (p : PostInit) : ArmaValue :=
  .map [("extdb_path", .str p.extdb_path),
        ("gambling_modifier", .int p.gambling_modifier),
        ("gambling_payout", .int p.gambling_payout),
        ("gambling_randomizer_max", .float64 p.gambling_randomizer_max),
        ("gambling_randomizer_mid", .float64 p.gambling_randomizer_mid),
        ("gambling_randomizer_min", .float64 p.gambling_randomizer_min),
        ("gambling_win_chance", .int p.gambling_win_chance),
        ("logging_add_player_to_territory", .boolean p.logging_add_player_to_territory),
        ("logging_demote_player", .boolean p.logging_demote_player),
        ("logging_exec", .boolean p.logging_exec),
        ("logging_gamble", .boolean p.logging_gamble),
        ("logging_modify_player", .boolean p.logging_modify_player),
        ("logging_pay_territory", .boolean p.logging_pay_territory),
        ("logging_promote_player", .boolean p.logging_promote_player),
        ("logging_remove_player_from_territory", .boolean p.logging_remove_player_from_territory),
        ("logging_reward", .boolean p.logging_reward),
        ("logging_transfer", .boolean p.logging_transfer),
        ("logging_upgrade_territory", .boolean p.logging_upgrade_territory),
        ("max_payment_count", .int p.max_payment_count),
        ("territory_payment_tax", .int p.territory_payment_tax),
        ("territory_upgrade_tax", .int p.territory_upgrade_tax),
        ("territory_admins", .arr (p.territory_admins.map ArmaValue.str))]

/-- `impl ToArma for Query` (src/data.rs):
`arma_value!({ "name": self.name, "arguments": self.arguments })`. -/
def Query.to_arma (q : Query) : ArmaValue :=
  .map [("name", .str q.name),
        ("arguments", .map (q.arguments.map (fun kv => (kv.1, .str kv.2))))]

/-- `impl ToArma for Data` (src/data.rs), call-depth indexed:

```
match self {
    Data::Empty => arma_value!({}),
    d => d.to_arma()
}
```

The catch-all arm binds `d : &Data` and `d.to_arma()` resolves to
`<Data as ToArma>::to_arma` — the very function being defined — so every
non-`Empty` variant re-enters the same match with the same value.  The
first argument is the remaining call depth (fuel); `none` means that no
finite call depth produces a result, i.e. the call never returns. -/
def Data.to_arma : Nat → Data → Option ArmaValue
  | _, .Empty => some (.map [])
  | 0, _ => none
  | n + 1, d => Data.to_arma n d

/-! ## Derived `Debug` rendering (used by the `retrieve_data!` panic) -/

/-- Rust's `Debug` escaping for one character of a string literal
(the common escapes; other characters print verbatim — the payloads in
scope are plain ASCII identifiers and names). -/
def escapeChar (c : Char) : List Char :=
  if c = '"' then ['\\', '"']
  else if c = '\\' then ['\\', '\\']
  else if c = '\n' then ['\\', 'n']
  else if c = '\r' then ['\\', 'r']
  else if c = '\t' then ['\\', 't']
  else [c]

/-- Rust's `Debug` rendering of a `String`: quoted and escaped. -/
def debugString (s : String) : String :=
  "\"" ++ String.mk (s.data.foldr (fun c r => escapeChar c ++ r) []) ++ "\""

/-- `Debug` text of an `f32` field.  The numeric decimal rendering of a
float is outside this embedding (floats are opaque bit patterns here);
the rendering is abstracted to the bit pattern.  No claim depends on
this text. -/
def F32.debugFmt (x : F32) : String := "f32<" ++ Nat.repr x.bits ++ ">"

/-- `Debug` text of an `f64` field, abstracted like `F32.debugFmt`. -/
def F64.debugFmt (x : F64) : String := "f64<" ++ Nat.repr x.bits ++ ">"

/-- `Debug` text of a `DateTime<Utc>` (chrono renders the RFC 3339
form). -/
def DateTimeUtc.debugFmt (t : DateTimeUtc) : String := toRfc3339 t

/-- `Debug` text of a `bool`. -/
def debugBool (b : Bool) : String := if b then "true" else "false"

/-- `Debug` text of an `i64`. -/
def debugInt (n : Int) : String := toString n

/-- `Debug` text of a `Vec<String>`. -/
def debugStrList (l : List String) : String :=
  "[" ++ String.intercalate ", " (l.map debugString) ++ "]"

/-- `Debug` text of a `HashMap<String, String>` (iteration order is the
stored order in this model). -/
def debugStrMap (l : List (String × String)) : String :=
  "\x7b" ++
    String.intercalate ", "
      (l.map (fun kv => debugString kv.1 ++ ": " ++ debugString kv.2)) ++
    "\x7d"

/-- Derived `Debug` for `Test`. -/
def Test.debugFmt (t : Test) : String :=
  "Test \x7b foo: " ++ debugString t.foo ++ " \x7d"

/-- Derived `Debug` for `Init`. -/
def Init.debugFmt (i : Init) : String :=
  "Init \x7b server_name: " ++ debugString i.server_name ++
    ", price_per_object: " ++ i.price_per_object.debugFmt ++
    ", territory_lifetime: " ++ i.territory_lifetime.debugFmt ++
    ", territory_data: " ++ debugString i.territory_data ++
    ", server_start_time: " ++ i.server_start_time.debugFmt ++
    ", extension_version: " ++ debugString i.extension_version ++ " \x7d"

/-- Derived `Debug` for `PostInit`. -/
def PostInit.debugFmt (p : PostInit) : String :=
  "PostInit \x7b extdb_path: " ++ debugString p.extdb_path ++
    ", gambling_modifier: " ++ debugInt p.gambling_modifier ++
    ", gambling_payout: " ++ debugInt p.gambling_payout ++
    ", gambling_randomizer_max: " ++ p.gambling_randomizer_max.debugFmt ++
    ", gambling_randomizer_mid: " ++ p.gambling_randomizer_mid.debugFmt ++
    ", gambling_randomizer_min: " ++ p.gambling_randomizer_min.debugFmt ++
    ", gambling_win_chance: " ++ debugInt p.gambling_win_chance ++
    ", logging_add_player_to_territory: " ++ debugBool p.logging_add_player_to_territory ++
    ", logging_demote_player: " ++ debugBool p.logging_demote_player ++
    ", logging_exec: " ++ debugBool p.logging_exec ++
    ", logging_gamble: " ++ debugBool p.logging_gamble ++
    ", logging_modify_player: " ++ debugBool p.logging_modify_player ++
    ", logging_pay_territory: " ++ debugBool p.logging_pay_territory ++
    ", logging_promote_player: " ++ debugBool p.logging_promote_player ++
    ", logging_remove_player_from_territory: " ++ debugBool p.logging_remove_player_from_territory ++
    ", logging_reward: " ++ debugBool p.logging_reward ++
    ", logging_transfer: " ++ debugBool p.logging_transfer ++
    ", logging_upgrade_territory: " ++ debugBool p.logging_upgrade_territory ++
    ", max_payment_count: " ++ debugInt p.max_payment_count ++
    ", territory_payment_tax: " ++ debugInt p.territory_payment_tax ++
    ", territory_upgrade_tax: " ++ debugInt p.territory_upgrade_tax ++
    ", territory_admins: " ++ debugStrList p.territory_admins ++ " \x7d"

/-- Derived `Debug` for `Query`. -/
def Query.debugFmt (q : Query) : String :=
  "Query \x7b name: " ++ debugString q.name ++
    ", arguments: " ++ debugStrMap q.arguments ++ " \x7d"

/-- Derived `Debug` for `Data`: the variant identifier, followed by the
parenthesised payload for tuple variants. -/
def Data.debugFmt : Data → String
  | .Empty => "Empty"
  | .Test t => "Test" ++ ("(" ++ t.debugFmt ++ ")")
  | .Init i => "Init" ++ ("(" ++ i.debugFmt ++ ")")
  | .PostInit p => "PostInit" ++ ("(" ++ p.debugFmt ++ ")")
  | .Query q => "Query" ++ ("(" ++ q.debugFmt ++ ")")

/-! ## Typed extraction (`retrieve_data!`, src/data.rs)

The macro expands, per requested variant identifier, to

```
match $message.data {
    Data::$data_type(v) => v,
    data => panic!("Unexpected data type {:?}. Expected: {}.",
                   data, stringify!($data_type))
};
```

The panic is modelled as `Except.error` carrying the formatted panic
message. -/

/-- The `retrieve_data!` panic message: `{:?}` is the derived `Debug` of
the actual payload, `{}` is `stringify!` of the expected identifier. -/
def mismatchMsg (d : Data) (expected : String) : String :=
  "Unexpected data type " ++ d.debugFmt ++ ". Expected: " ++ expected ++ "."

/-- `retrieve_data!(message, Test)`. -/
def retrieveTest : Data → Except String Test
  | Data.Test v => .ok v
  | d => .error (mismatchMsg d "Test")

/-- `retrieve_data!(message, Init)`. -/
def retrieveInit : Data → Except String Init
  | Data.Init v => .ok v
  | d => .error (mismatchMsg d "Init")

/-- `retrieve_data!(message, PostInit)`. -/
def retrievePostInit : Data → Except String PostInit
  | Data.PostInit v => .ok v
  | d => .error (mismatchMsg d "PostInit")

/-- `retrieve_data!(message, Query)`. -/
def retrieveQuery : Data → Except String Query
  | Data.Query v => .ok v
  | d => .error (mismatchMsg d "Query")

/-- The variant identifiers the macro can be instantiated at (the unit
variant `Empty` has no payload to bind, so `retrieve_data!(m, Empty)`
does not compile in the source). -/
inductive Expected where
  | Test | Init | PostInit | Query
deriving DecidableEq, Repr

/-- The discriminator an `Expected` instantiation matches. -/
def Expected.tag : Expected → VariantTag
  | .Test => .Test
  | .Init => .Init
  | .PostInit => .PostInit
  | .Query => .Query

/-- `stringify!` of the expected identifier. -/
def Expected.stringify : Expected → String
  | .Test => "Test"
  | .Init => "Init"
  | .PostInit => "PostInit"
  | .Query => "Query"

/-- The record yielded by a successful extraction, wrapped in one sum so
all four macro instantiations can be quantified over together. -/
inductive Extracted where
  | Test : Test → Extracted
  | Init : Init → Extracted
  | PostInit : PostInit → Extracted
  | Query : Query → Extracted
deriving DecidableEq, Repr

/-- Dispatch of the four `retrieve_data!` instantiations. -/
def retrieveAs : Expected → Data → Except String Extracted
  | .Test, d => (retrieveTest d).map Extracted.Test
  | .Init, d => (retrieveInit d).map Extracted.Init
  | .PostInit, d => (retrievePostInit d).map Extracted.PostInit
  | .Query, d => (retrieveQuery d).map Extracted.Query

/-- `needle` occurs verbatim inside `hay`. -/
def namesSub (needle hay : String) : Prop :=
  ∃ l r, hay.data = l ++ needle.data ++ r

/-! ## Wire encoding (serde derive on `Data`, src/data.rs)

`#[serde(tag = "type", content = "content", rename_all = "snake_case")]`
declares the adjacently tagged encoding.  The serde machinery itself is
an external library ("generic (de)serialization machinery (assumed to
exist as a correct external library supporting tagged-union
encode/decode)"), so the encoder and decoder below are modelled from the
spec's shape contract: a tagged structure with host-visible `type` and
`content` fields, `type` the snake_case variant name, `content` the
section 4.2 host value (omitted for `empty`, which serde emits for a
unit variant). -/

/-- Modelled from the spec: serde adjacently-tagged encoding of `Data`. -/
def encodeData : Data → ArmaValue
  | .Empty => .map [("type", .str "empty")]
  | .Test t => .map [("type", .str "test"), ("content", t.to_arma)]
  | .Init i => .map [("type", .str "init"), ("content", i.to_arma)]
  | .PostInit p => .map [("type", .str "post_init"), ("content", p.to_arma)]
  | .Query q => .map [("type", .str "query"), ("content", q.to_arma)]

/-- Decode a list of host values that must all be strings
(deserialization of `Vec<String>`). -/
def decodeStrings : List ArmaValue → Except String (List String)
  | [] => .ok []
  | .str s :: vs =>
    match decodeStrings vs with
    | .ok rest => .ok (s :: rest)
    | .error e => .error e
  | _ :: _ => .error "expected a string element"

/-- Decode the entries of a string-to-string map (deserialization of
`HashMap<String, String>`). -/
def decodePairs : List (String × ArmaValue) → Except String (List (String × String))
  | [] => .ok []
  | (k, .str s) :: kvs =>
    match decodePairs kvs with
    | .ok rest => .ok ((k, s) :: rest)
    | .error e => .error e
  | _ :: _ => .error "expected a string value"

/-- Modelled from the spec: field-wise decoding of a `Test` record;
missing or ill-typed fields are rejected, never default-filled. -/
def decodeTest : ArmaValue → Except String Test
  | .map fs =>
    match fs.lookup "foo" with
    | some (.str foo) => .ok { foo := foo }
    | _ => .error "test: missing or ill-typed field"
  | _ => .error "test: payload must be a map"

/-- Modelled from the spec: field-wise decoding of an `Init` record. -/
def decodeInit : ArmaValue → Except String Init
  | .map fs =>
    match fs.lookup "server_name", fs.lookup "price_per_object",
          fs.lookup "territory_lifetime", fs.lookup "territory_data",
          fs.lookup "server_start_time", fs.lookup "extension_version" with
    | some (.str sn), some (.float32 po), some (.float32 tl),
      some (.str td), some (.str st), some (.str ev) =>
      match parseRfc3339 st with
      | some ts => .ok { server_name := sn, price_per_object := po,
                         territory_lifetime := tl, territory_data := td,
                         server_start_time := ts, extension_version := ev }
      | none => .error "init: invalid server_start_time"
    | _, _, _, _, _, _ => .error "init: missing or ill-typed field"
  | _ => .error "init: payload must be a map"

/-- Modelled from the spec: field-wise decoding of a `PostInit` record. -/
def decodePostInit : ArmaValue → Except String PostInit
  | .map fs =>
    match fs.lookup "extdb_path", fs.lookup "gambling_modifier",
          fs.lookup "gambling_payout", fs.lookup "gambling_randomizer_max",
          fs.lookup "gambling_randomizer_mid", fs.lookup "gambling_randomizer_min",
          fs.lookup "gambling_win_chance", fs.lookup "logging_add_player_to_territory",
          fs.lookup "logging_demote_player", fs.lookup "logging_exec",
          fs.lookup "logging_gamble", fs.lookup "logging_modify_player",
          fs.lookup "logging_pay_territory", fs.lookup "logging_promote_player",
          fs.lookup "logging_remove_player_from_territory", fs.lookup "logging_reward",
          fs.lookup "logging_transfer", fs.lookup "logging_upgrade_territory",
          fs.lookup "max_payment_count", fs.lookup "territory_payment_tax",
          fs.lookup "territory_upgrade_tax", fs.lookup "territory_admins" with
    | some (.str ep), some (.int gm), some (.int gp), some (.float64 grmax),
      some (.float64 grmid), some (.float64 grmin), some (.int gwc),
      some (.boolean l1), some (.boolean l2), some (.boolean l3),
      some (.boolean l4), some (.boolean l5), some (.boolean l6),
      some (.boolean l7), some (.boolean l8), some (.boolean l9),
      some (.boolean l10), some (.boolean l11), some (.int mpc),
      some (.int tpt), some (.int tut), some (.arr adminVals) =>
      match decodeStrings adminVals with
      | .ok admins =>
        .ok { extdb_path := ep, gambling_modifier := gm, gambling_payout := gp,
              gambling_randomizer_max := grmax, gambling_randomizer_mid := grmid,
              gambling_randomizer_min := grmin, gambling_win_chance := gwc,
              logging_add_player_to_territory := l1, logging_demote_player := l2,
              logging_exec := l3, logging_gamble := l4,
              logging_modify_player := l5, logging_pay_territory := l6,
              logging_promote_player := l7,
              logging_remove_player_from_territory := l8,
              logging_reward := l9, logging_transfer := l10,
              logging_upgrade_territory := l11, max_payment_count := mpc,
              territory_payment_tax := tpt, territory_upgrade_tax := tut,
              territory_admins := admins }
      | .error e => .error e
    | _, _, _, _, _, _, _, _, _, _, _, _, _, _, _, _, _, _, _, _, _, _ =>
      .error "post_init: missing or ill-typed field"
  | _ => .error "post_init: payload must be a map"

/-- Modelled from the spec: field-wise decoding of a `Query` record. -/
def decodeQuery : ArmaValue → Except String Query
  | .map fs =>
    match fs.lookup "name", fs.lookup "arguments" with
    | some (.str n), some (.map argVals) =>
      match decodePairs argVals with
      | .ok args => .ok { name := n, arguments := args }
      | .error e => .error e
    | _, _ => .error "query: missing or ill-typed field"
  | _ => .error "query: payload must be a map"

/-- Modelled from the spec: adjacently-tagged decoding of `Data` — read
the `type` tag, dispatch on the snake_case variant name, decode the
`content` field; unknown tags and missing fields are structured decode
errors. -/
def decodeData : ArmaValue → Except String Data
  | .map fs =>
    match fs.lookup "type" with
    | some (.str "empty") => .ok Data.Empty
    | some (.str "test") =>
      match fs.lookup "content" with
      | some c => match decodeTest c with
                  | .ok v => .ok (Data.Test v)
                  | .error e => .error e
      | none => .error "missing content field"
    | some (.str "init") =>
      match fs.lookup "content" with
      | some c => match decodeInit c with
                  | .ok v => .ok (Data.Init v)
                  | .error e => .error e
      | none => .error "missing content field"
    | some (.str "post_init") =>
      match fs.lookup "content" with
      | some c => match decodePostInit c with
                  | .ok v => .ok (Data.PostInit v)
                  | .error e => .error e
      | none => .error "missing content field"
    | some (.str "query") =>
      match fs.lookup "content" with
      | some c => match decodeQuery c with
                  | .ok v => .ok (Data.Query v)
                  | .error e => .error e
      | none => .error "missing content field"
    | some (.str _) => .error "unknown type tag"
    | _ => .error "type tag must be a string"
  | _ => .error "payload must be a map"

/-- Validity of the payload for the round-trip statement: the only
constraint is that `Init`'s timestamp is calendar-plausible (which every
`chrono` value is). -/
def Data.Valid : Data → Prop
  | .Init i => i.server_start_time.Valid
  | _ => True

instance (d : Data) : Decidable d.Valid :=
  match d with
  | .Empty => .isTrue trivial
  | .Test _ => .isTrue trivial
  | .Init i => inferInstanceAs (Decidable i.server_start_time.Valid)
  | .PostInit _ => .isTrue trivial
  | .Query _ => .isTrue trivial

/-! ## Derived `Clone` and `PartialEq` (src/data.rs derive attributes) -/

/-- Derived `Clone` for `Test`: field-wise copy. -/
def Test.clone (t : Test) : Test := { foo := t.foo }

/-- Derived `Clone` for `Init`. -/
def Init.clone (i : Init) : Init :=
  { server_name := i.server_name, price_per_object := i.price_per_object,
    territory_lifetime := i.territory_lifetime,
    territory_data := i.territory_data,
    server_start_time := i.server_start_time,
    extension_version := i.extension_version }

/-- Derived `Clone` for `PostInit`. -/
def PostInit.clone (p : PostInit) : PostInit :=
  { extdb_path := p.extdb_path, gambling_modifier := p.gambling_modifier,
    gambling_payout := p.gambling_payout,
    gambling_randomizer_max := p.gambling_randomizer_max,
    gambling_randomizer_mid := p.gambling_randomizer_mid,
    gambling_randomizer_min := p.gambling_randomizer_min,
    gambling_win_chance := p.gambling_win_chance,
    logging_add_player_to_territory := p.logging_add_player_to_territory,
    logging_demote_player := p.logging_demote_player,
    logging_exec := p.logging_exec, logging_gamble := p.logging_gamble,
    logging_modify_player := p.logging_modify_player,
    logging_pay_territory := p.logging_pay_territory,
    logging_promote_player := p.logging_promote_player,
    logging_remove_player_from_territory := p.logging_remove_player_from_territory,
    logging_reward := p.logging_reward, logging_transfer := p.logging_transfer,
    logging_upgrade_territory := p.logging_upgrade_territory,
    max_payment_count := p.max_payment_count,
    territory_payment_tax := p.territory_payment_tax,
    territory_upgrade_tax := p.territory_upgrade_tax,
    territory_admins := p.territory_admins }

/-- Derived `Clone` for `Query`. -/
def Query.clone (q : Query) : Query :=
  { name := q.name, arguments := q.arguments }

/-- Derived `Clone` for `Data`: clone the payload under the same
variant. -/
def Data.clone : Data → Data
  | .Empty => .Empty
  | .Test t => .Test t.clone
  | .Init i => .Init i.clone
  | .PostInit p => .PostInit p.clone
  | .Query q => .Query q.clone

/-- Derived `PartialEq` for `Test`. -/
def Test.beq (a b : Test) : Bool := a.foo == b.foo

/-- Derived `PartialEq` for `Init`: field-wise, with IEEE equality on
the `f32` fields and structural equality elsewhere. -/
def Init.beq (a b : Init) : Bool :=
  a.server_name == b.server_name &&
  F32.beq a.price_per_object b.price_per_object &&
  F32.beq a.territory_lifetime b.territory_lifetime &&
  a.territory_data == b.territory_data &&
  decide (a.server_start_time = b.server_start_time) &&
  a.extension_version == b.extension_version

/-- Derived `PartialEq` for `PostInit`: field-wise, with IEEE equality
on the `f64` fields. -/
def PostInit.beq (a b : PostInit) : Bool :=
  a.extdb_path == b.extdb_path &&
  a.gambling_modifier == b.gambling_modifier &&
  a.gambling_payout == b.gambling_payout &&
  F64.beq a.gambling_randomizer_max b.gambling_randomizer_max &&
  F64.beq a.gambling_randomizer_mid b.gambling_randomizer_mid &&
  F64.beq a.gambling_randomizer_min b.gambling_randomizer_min &&
  a.gambling_win_chance == b.gambling_win_chance &&
  a.logging_add_player_to_territory == b.logging_add_player_to_territory &&
  a.logging_demote_player == b.logging_demote_player &&
  a.logging_exec == b.logging_exec &&
  a.logging_gamble == b.logging_gamble &&
  a.logging_modify_player == b.logging_modify_player &&
  a.logging_pay_territory == b.logging_pay_territory &&
  a.logging_promote_player == b.logging_promote_player &&
  a.logging_remove_player_from_territory == b.logging_remove_player_from_territory &&
  a.logging_reward == b.logging_reward &&
  a.logging_transfer == b.logging_transfer &&
  a.logging_upgrade_territory == b.logging_upgrade_territory &&
  a.max_payment_count == b.max_payment_count &&
  a.territory_payment_tax == b.territory_payment_tax &&
  a.territory_upgrade_tax == b.territory_upgrade_tax &&
  a.territory_admins == b.territory_admins

/-- `PartialEq` of `std::collections::HashMap`: same length and every
entry of the left map present with the same value in the right one
(this is the standard library's implementation, on the association-list
model of the map). -/
def hmBeq (a b : List (String × String)) : Bool :=
  a.length == b.length && a.all (fun kv => b.lookup kv.1 == some kv.2)

/-- Derived `PartialEq` for `Query`. -/
def Query.beq (a b : Query) : Bool :=
  a.name == b.name && hmBeq a.arguments b.arguments

/-- Derived `PartialEq` for `Data`: equal variants compare payloads,
different variants are unequal. -/
def Data.beq : Data → Data → Bool
  | .Empty, .Empty => true
  | .Test a, .Test b => a.beq b
  | .Init a, .Init b => a.beq b
  | .PostInit a, .PostInit b => a.beq b
  | .Query a, .Query b => a.beq b
  | _, _ => false

/-- No `f32`/`f64` field of the payload holds an IEEE NaN. -/
def NanFree : Data → Bool
  | .Init i => !i.price_per_object.isNan && !i.territory_lifetime.isNan
  | .PostInit p => !p.gambling_randomizer_max.isNan &&
      !p.gambling_randomizer_mid.isNan && !p.gambling_randomizer_min.isNan
  | _ => true

/-- The `HashMap` key-uniqueness invariant of a `Query` payload. -/
def KeysOk : Data → Prop
  | .Query q => (q.arguments.map Prod.fst).Nodup
  | _ => True

instance (d : Data) : Decidable (KeysOk d) :=
  match d with
  | .Empty => .isTrue trivial
  | .Test _ => .isTrue trivial
  | .Init _ => .isTrue trivial
  | .PostInit _ => .isTrue trivial
  | .Query q => inferInstanceAs (Decidable ((q.arguments.map Prod.fst).Nodup))

/-! ## Concrete values used by witnesses and counterexamples -/

/-- The field list claim C6 attributes to `PostInit` (spec section 3):
the six gambling parameters, the eleven logging toggles, the three tax
and payment fields, and `territory_admins` — written from the claim's
words, to be compared with the source's field list. -/
def specC6Fields : List String :=
  ["gambling_modifier", "gambling_payout", "gambling_randomizer_max",
   "gambling_randomizer_mid", "gambling_randomizer_min",
   "gambling_win_chance", "logging_add_player_to_territory",
   "logging_demote_player", "logging_exec", "logging_gamble",
   "logging_modify_player", "logging_pay_territory",
   "logging_promote_player", "logging_remove_player_from_territory",
   "logging_reward", "logging_transfer", "logging_upgrade_territory",
   "max_payment_count", "territory_payment_tax", "territory_upgrade_tax",
   "territory_admins"]

/-- A concrete `PostInit` record. -/
def samplePostInit : PostInit :=
  { extdb_path := "extdb3", gambling_modifier := 1, gambling_payout := 95,
    gambling_randomizer_max := ⟨0⟩, gambling_randomizer_mid := ⟨0⟩,
    gambling_randomizer_min := ⟨0⟩, gambling_win_chance := 35,
    logging_add_player_to_territory := true, logging_demote_player := true,
    logging_exec := false, logging_gamble := false,
    logging_modify_player := true, logging_pay_territory := true,
    logging_promote_player := true,
    logging_remove_player_from_territory := true, logging_reward := false,
    logging_transfer := true, logging_upgrade_territory := true,
    max_payment_count := 5, territory_payment_tax := 10,
    territory_upgrade_tax := 15, territory_admins := ["76561198037177305"] }

/-- A concrete timestamp: 2021-05-14T12:30:05 UTC. -/
def sampleTs : DateTimeUtc :=
  { year := 2021, month := 5, day := 14, hour := 12, minute := 30, second := 5 }

/-- A concrete `Init` record (the spec's section 8 scenario, with the
`f32` fields as opaque bit patterns). -/
def sampleInit : Init :=
  { server_name := "Server1", price_per_object := ⟨0x3FC00000⟩,
    territory_lifetime := ⟨0x41F00000⟩, territory_data := "std",
    server_start_time := sampleTs, extension_version := "1.0.0" }

/-- The bit pattern of a quiet `f32` NaN. -/
def nanF32 : F32 := ⟨0x7FC00000⟩

/-- An `Init` record whose `price_per_object` is NaN. -/
def initNan : Init :=
  { server_name := "s", price_per_object := nanF32,
    territory_lifetime := ⟨0⟩, territory_data := "",
    server_start_time := sampleTs, extension_version := "" }

/-! ## Helper lemmas -/

theorem data_append (a b : String) : (a ++ b).data = a.data ++ b.data := rfl

/-- The source's `Data::to_arma` on `Empty` returns the empty container
at every call depth. -/
theorem to_arma_empty (n : Nat) : Data.to_arma n Data.Empty = some (.map []) := by
  cases n <;> rfl

/-- The source's `Data::to_arma` never returns on a non-`Empty` payload:
the catch-all arm calls the function itself on the same value, so no
call depth suffices. -/
theorem to_arma_nonEmpty_none :
    ∀ (n : Nat) (d : Data), d ≠ Data.Empty → Data.to_arma n d = none := by
  intro n
  induction n with
  | zero => intro d h; cases d with
    | Empty => exact absurd rfl h
    | Test t => rfl
    | Init i => rfl
    | PostInit p => rfl
    | Query q => rfl
  | succ m ih =>
    intro d h
    cases d with
    | Empty => exact absurd rfl h
    | Test t => exact ih _ h
    | Init i => exact ih _ h
    | PostInit p => exact ih _ h
    | Query q => exact ih _ h

/-- The derived `Debug` text of a payload starts with its variant
identifier. -/
theorem debugFmt_split (d : Data) :
    ∃ rest, d.debugFmt = (VariantTag.name d.tag) ++ rest := by
  cases d with
  | Empty => exact ⟨"", rfl⟩
  | Test t => exact ⟨_, rfl⟩
  | Init i => exact ⟨_, rfl⟩
  | PostInit p => exact ⟨_, rfl⟩
  | Query q => exact ⟨_, rfl⟩

/-- The panic message of `retrieve_data!` contains the actual payload's
variant identifier. -/
theorem namesSub_actual (d : Data) (e : String) :
    namesSub (VariantTag.name d.tag) (mismatchMsg d e) := by
  obtain ⟨rest, hrest⟩ := debugFmt_split d
  refine ⟨"Unexpected data type ".data,
          (rest ++ ". Expected: " ++ e ++ ".").data, ?_⟩
  simp only [mismatchMsg, hrest, data_append, List.append_assoc]

/-- The panic message of `retrieve_data!` contains the expected variant
identifier. -/
theorem namesSub_expected (d : Data) (e : String) :
    namesSub e (mismatchMsg d e) := by
  refine ⟨("Unexpected data type " ++ d.debugFmt ++ ". Expected: ").data,
          ".".data, ?_⟩
  simp only [mismatchMsg, data_append, List.append_assoc]

theorem digitAux (k : Nat) (hk : k < 10) :
    (Char.ofNat (48 + k)).isDigit = true ∧ (Char.ofNat (48 + k)).toNat - 48 = k := by
  interval_cases k <;> exact ⟨rfl, rfl⟩

theorem digitChar_isDigit (n : Nat) : (digitChar n).isDigit = true :=
  (digitAux (n % 10) (Nat.mod_lt _ (by omega))).1

theorem digitVal_digitChar (n : Nat) : digitVal (digitChar n) = n % 10 :=
  (digitAux (n % 10) (Nat.mod_lt _ (by omega))).2

/-- Parsing inverts the RFC 3339 rendering on calendar-plausible
timestamps. -/
theorem parse_toRfc3339 (t : DateTimeUtc) (h : t.Valid) :
    parseRfc3339 (toRfc3339 t) = some t := by
  obtain ⟨y, mo, dy, hr, mi, se⟩ := t
  obtain ⟨hy, hm1, hm2, hd1, hd2, hh, hmi, hs⟩ := h
  dsimp only at hy hm1 hm2 hd1 hd2 hh hmi hs
  show parseChars (toRfc3339 ⟨y, mo, dy, hr, mi, se⟩).data = _
  have hdata : (toRfc3339 ⟨y, mo, dy, hr, mi, se⟩).data =
      [digitChar (y / 1000), digitChar (y / 100), digitChar (y / 10), digitChar y,
       '-', digitChar (mo / 10), digitChar mo,
       '-', digitChar (dy / 10), digitChar dy,
       'T', digitChar (hr / 10), digitChar hr,
       ':', digitChar (mi / 10), digitChar mi,
       ':', digitChar (se / 10), digitChar se,
       '+', '0', '0', ':', '0', '0'] := rfl
  rw [hdata]
  simp only [parseChars, digitChar_isDigit, digitVal_digitChar]
  simp only [Bool.and_true, Bool.true_and, beq_self_eq_true, if_true]
  simp only [Option.some.injEq, DateTimeUtc.mk.injEq]
  refine ⟨by omega, by omega, by omega, by omega, by omega, by omega⟩

/-- The RFC 3339 rendering is injective on calendar-plausible
timestamps: the string determines the exact timestamp. -/
theorem toRfc3339_inj (t t' : DateTimeUtc) (h : t.Valid) (h' : t'.Valid)
    (heq : toRfc3339 t = toRfc3339 t') : t = t' := by
  have h1 := parse_toRfc3339 t h
  have h2 := parse_toRfc3339 t' h'
  rw [heq, h2] at h1
  exact Option.some.inj h1.symm

theorem decodeStrings_map (l : List String) :
    decodeStrings (l.map ArmaValue.str) = .ok l := by
  induction l with
  | nil => rfl
  | cons a tl ih => simp [decodeStrings, ih]

theorem decodePairs_map (l : List (String × String)) :
    decodePairs (l.map (fun kv => (kv.1, ArmaValue.str kv.2))) = .ok l := by
  induction l with
  | nil => rfl
  | cons a tl ih => simp [decodePairs, ih]

theorem decodeTest_to_arma (t : Test) : decodeTest t.to_arma = .ok t := rfl

theorem decodeInit_to_arma (i : Init) (h : i.server_start_time.Valid) :
    decodeInit i.to_arma = .ok i := by
  have hstep : decodeInit i.to_arma =
      match parseRfc3339 (toRfc3339 i.server_start_time) with
      | some ts => .ok { server_name := i.server_name,
                         price_per_object := i.price_per_object,
                         territory_lifetime := i.territory_lifetime,
                         territory_data := i.territory_data,
                         server_start_time := ts,
                         extension_version := i.extension_version }
      | none => .error "init: invalid server_start_time" := rfl
  rw [hstep, parse_toRfc3339 _ h]

theorem decodePostInit_to_arma (p : PostInit) :
    decodePostInit p.to_arma = .ok p := by
  have hstep : decodePostInit p.to_arma =
      match decodeStrings (p.territory_admins.map ArmaValue.str) with
      | .ok admins =>
        Except.ok
          { extdb_path := p.extdb_path,
            gambling_modifier := p.gambling_modifier,
            gambling_payout := p.gambling_payout,
            gambling_randomizer_max := p.gambling_randomizer_max,
            gambling_randomizer_mid := p.gambling_randomizer_mid,
            gambling_randomizer_min := p.gambling_randomizer_min,
            gambling_win_chance := p.gambling_win_chance,
            logging_add_player_to_territory := p.logging_add_player_to_territory,
            logging_demote_player := p.logging_demote_player,
            logging_exec := p.logging_exec,
            logging_gamble := p.logging_gamble,
            logging_modify_player := p.logging_modify_player,
            logging_pay_territory := p.logging_pay_territory,
            logging_promote_player := p.logging_promote_player,
            logging_remove_player_from_territory := p.logging_remove_player_from_territory,
            logging_reward := p.logging_reward,
            logging_transfer := p.logging_transfer,
            logging_upgrade_territory := p.logging_upgrade_territory,
            max_payment_count := p.max_payment_count,
            territory_payment_tax := p.territory_payment_tax,
            territory_upgrade_tax := p.territory_upgrade_tax,
            territory_admins := admins }
      | .error e => Except.error e := rfl
  rw [hstep, decodeStrings_map]

theorem decodeQuery_to_arma (q : Query) : decodeQuery q.to_arma = .ok q := by
  have hstep : decodeQuery q.to_arma =
      match decodePairs (q.arguments.map (fun kv => (kv.1, ArmaValue.str kv.2))) with
      | .ok args => Except.ok { name := q.name, arguments := args }
      | .error e => Except.error e := rfl
  rw [hstep, decodePairs_map]

/-- Decoding inverts the adjacently-tagged encoding on every valid
payload. -/
theorem decode_encode (d : Data) (h : d.Valid) :
    decodeData (encodeData d) = .ok d := by
  cases d with
  | Empty => rfl
  | Test t => rfl
  | Init i =>
    have hstep : decodeData (encodeData (Data.Init i)) =
        match decodeInit i.to_arma with
        | .ok v => Except.ok (Data.Init v)
        | .error e => Except.error e := rfl
    rw [hstep, decodeInit_to_arma i h]
  | PostInit p =>
    have hstep : decodeData (encodeData (Data.PostInit p)) =
        match decodePostInit p.to_arma with
        | .ok v => Except.ok (Data.PostInit v)
        | .error e => Except.error e := rfl
    rw [hstep, decodePostInit_to_arma p]
  | Query q =>
    have hstep : decodeData (encodeData (Data.Query q)) =
        match decodeQuery q.to_arma with
        | .ok v => Except.ok (Data.Query v)
        | .error e => Except.error e := rfl
    rw [hstep, decodeQuery_to_arma q]

/-- In a map with pairwise-distinct keys, looking up any stored entry's
key returns that entry's value. -/
theorem lookup_self :
    ∀ (l : List (String × String)), (l.map Prod.fst).Nodup →
      ∀ kv ∈ l, l.lookup kv.1 = some kv.2 := by
  intro l
  induction l with
  | nil => intro _ kv hkv; cases hkv
  | cons hd tl ih =>
    intro h kv hkv
    obtain ⟨k, v⟩ := hd
    rw [List.map_cons, List.nodup_cons] at h
    rcases List.mem_cons.mp hkv with heq | hmem
    · subst heq
      simp [List.lookup]
    · have hne : kv.1 ≠ k := by
        intro hEq
        have hmm : kv.1 ∈ tl.map Prod.fst := List.mem_map_of_mem Prod.fst hmem
        exact h.1 (hEq ▸ hmm)
      have hbeq : (kv.1 == k) = false := beq_eq_false_iff_ne.mpr hne
      simp [List.lookup, hbeq, ih h.2 kv hmem]

/-- `HashMap` equality is reflexive on maps with unique keys. -/
theorem hmBeq_refl (l : List (String × String))
    (h : (l.map Prod.fst).Nodup) : hmBeq l l = true := by
  simp only [hmBeq, beq_self_eq_true, Bool.true_and, List.all_eq_true]
  intro kv hkv
  rw [lookup_self l h kv hkv]
  simp

/-- IEEE equality is reflexive on non-NaN `f32` values. -/
theorem f32_beq_self (x : F32) (h : x.isNan = false) : F32.beq x x = true := by
  simp [F32.beq, h]

/-- IEEE equality is reflexive on non-NaN `f64` values. -/
theorem f64_beq_self (x : F64) (h : x.isNan = false) : F64.beq x x = true := by
  simp [F64.beq, h]

/-- Derived `PartialEq` holds between a clone and its original whenever
no float field is NaN (and the `Query` map keeps its key-uniqueness
invariant). -/
theorem beq_clone (d : Data) (hn : NanFree d = true) (hk : KeysOk d) :
    Data.beq d.clone d = true := by
  cases d with
  | Empty => rfl
  | Test t =>
    show Test.beq t t = true
    simp [Test.beq]
  | Init i =>
    simp only [NanFree, Bool.and_eq_true, Bool.not_eq_true'] at hn
    show Init.beq i i = true
    simp [Init.beq, f32_beq_self _ hn.1, f32_beq_self _ hn.2]
  | PostInit p =>
    simp only [NanFree, Bool.and_eq_true, Bool.not_eq_true'] at hn
    show PostInit.beq p p = true
    simp [PostInit.beq, f64_beq_self _ hn.1.1, f64_beq_self _ hn.1.2,
          f64_beq_self _ hn.2]
  | Query q =>
    show Query.beq q q = true
    simp [Query.beq, hmBeq_refl q.arguments hk]

/-- Derived `PartialEq` only relates payloads of the same variant. -/
theorem beq_tag (d d' : Data) (h : Data.beq d d' = true) : d.tag = d'.tag := by
  cases d <;> cases d' <;> first | rfl | exact Bool.noConfusion h

/-- The derived field-wise clone rebuilds the identical value. -/
theorem clone_eq (d : Data) : Data.clone d = d := by
  cases d <;> rfl

/-! ## Claims -/

/-- C1: the claim states `Data::to_arma` is a pure, total function that
terminates on every variant.  The code contradicts it: the catch-all arm
`d => d.to_arma()` re-invokes `<Data as ToArma>::to_arma` on the same
value, so on every non-`Empty` payload the conversion never returns at
any call depth (stack-overflow abort at runtime).  This theorem
evaluates the code at the failing inputs. -/
theorem c1_data_to_arma_diverges (n : Nat) (d : Data)
    (h : d ≠ Data.Empty) : Data.to_arma n d = none :=
  to_arma_nonEmpty_none n d h

/-- Witness for C1 at a concrete payload and call depth. -/
theorem c1_data_to_arma_diverges_witness :
    Data.to_arma 7 (Data.Test { foo := "test" }) = none :=
  c1_data_to_arma_diverges 7 (Data.Test { foo := "test" }) (by decide)

/-- C2: the claim states `to_host_value(Data::V(record))` returns the
container of the record's fields for every non-`Empty` variant.  At the
`Data` level the code diverges (same defect as C1): the first two
conjuncts evaluate the code at failing inputs.  The remaining conjuncts
prove the intended per-record conversions do produce exactly the
record's fields, keyed by the field's own names, with no wrapper or
variant tag. -/
theorem c2_nonempty_variant_conversion (n : Nat) (t : Test) (i : Init)
    (q : Query) :
    Data.to_arma n (Data.Query q) = none ∧
    Data.to_arma n (Data.Init i) = none ∧
    Test.to_arma t = .map [("foo", .str t.foo)] ∧
    (Init.to_arma i).keys = ["server_name", "price_per_object",
      "territory_lifetime", "territory_data", "server_start_time",
      "extension_version"] ∧
    Query.to_arma q = .map [("name", .str q.name),
      ("arguments", .map (q.arguments.map (fun kv => (kv.1, ArmaValue.str kv.2))))] :=
  ⟨to_arma_nonEmpty_none n _ (fun h => Data.noConfusion h),
   to_arma_nonEmpty_none n _ (fun h => Data.noConfusion h), rfl, rfl, rfl⟩

/-- C3: extracting an unexpected variant fails with the
`retrieve_data!` panic (modelled as `Except.error`), returns no value,
and the diagnostic contains both the actual payload's variant identifier
and the expected variant's identifier. -/
theorem c3_mismatched_extraction_fails (e : Expected) (d : Data)
    (h : d.tag ≠ e.tag) :
    retrieveAs e d = .error (mismatchMsg d e.stringify) ∧
    (∀ x, retrieveAs e d ≠ .ok x) ∧
    namesSub (VariantTag.name d.tag) (mismatchMsg d e.stringify) ∧
    namesSub e.stringify (mismatchMsg d e.stringify) := by
  have herr : retrieveAs e d = .error (mismatchMsg d e.stringify) := by
    cases e <;> cases d <;> first | exact absurd rfl h | rfl
  refine ⟨herr, ?_, namesSub_actual d _, namesSub_expected d _⟩
  intro x hx
  rw [herr] at hx
  exact Except.noConfusion hx

/-- Witness for C3: extracting `Test` from an `Empty` payload. -/
theorem c3_mismatched_extraction_fails_witness :
    retrieveAs Expected.Test Data.Empty =
      .error (mismatchMsg Data.Empty "Test") ∧
    (∀ x, retrieveAs Expected.Test Data.Empty ≠ .ok x) ∧
    namesSub (VariantTag.name Data.Empty.tag) (mismatchMsg Data.Empty "Test") ∧
    namesSub "Test" (mismatchMsg Data.Empty "Test") :=
  c3_mismatched_extraction_fails Expected.Test Data.Empty (by decide)

/-- C4: extracting the variant a payload actually carries succeeds and
returns the inner record unchanged, for every supported variant. -/
theorem c4_matched_extraction_returns_record (t : Test) (i : Init)
    (p : PostInit) (q : Query) :
    retrieveTest (Data.Test t) = .ok t ∧
    retrieveInit (Data.Init i) = .ok i ∧
    retrievePostInit (Data.PostInit p) = .ok p ∧
    retrieveQuery (Data.Query q) = .ok q :=
  ⟨rfl, rfl, rfl, rfl⟩

/-- C5: converting `Data::Empty` yields the empty associative container
(at every call depth — the `Empty` arm is the terminating special case),
and that container is not the null/absence marker. -/
theorem c5_empty_converts_to_empty_map (n : Nat) :
    Data.to_arma n Data.Empty = some (ArmaValue.map []) ∧
    ArmaValue.map [] ≠ ArmaValue.null :=
  ⟨to_arma_empty n, fun h => ArmaValue.noConfusion h⟩

/-- C6 counterexample: the claim's field list omits `extdb_path`, but
the source's `PostInit` has it and its conversion emits that entry, so
the converted container does not consist of exactly the claimed
entries. -/
theorem c6_counterexample :
    "extdb_path" ∈ (PostInit.to_arma samplePostInit).keys ∧
    "extdb_path" ∉ specC6Fields ∧
    (PostInit.to_arma samplePostInit).keys ≠ specC6Fields := by
  refine ⟨?_, ?_, ?_⟩ <;> decide

/-- C6 (amended): a `PostInit` record consists of `extdb_path` plus the
fields the claim lists, and its host conversion has exactly those
entries in source order, with `territory_admins` carried as the ordered
string list. -/
theorem c6_postinit_fields (p : PostInit) :
    (PostInit.to_arma p).keys = "extdb_path" :: specC6Fields ∧
    (PostInit.to_arma p).getField "territory_admins" =
      some (.arr (p.territory_admins.map ArmaValue.str)) :=
  ⟨rfl, rfl⟩

/-- C7: decoding inverts the adjacently-tagged encoding on every valid
payload, and every encoding carries the snake_case variant name in its
`type` field (`empty`, `test`, `init`, `post_init`, `query`). -/
theorem c7_round_trip (d : Data) (h : d.Valid) :
    decodeData (encodeData d) = .ok d ∧
    (encodeData d).getField "type" = some (.str (snakeTag d.tag)) := by
  refine ⟨decode_encode d h, ?_⟩
  cases d <;> rfl

/-- Witness for C7 on a concrete `Init` payload (the variant whose
round trip exercises the timestamp rendering). -/
theorem c7_round_trip_witness :
    decodeData (encodeData (Data.Init sampleInit)) = .ok (Data.Init sampleInit) ∧
    (encodeData (Data.Init sampleInit)).getField "type" =
      some (.str (snakeTag (Data.Init sampleInit).tag)) :=
  c7_round_trip (Data.Init sampleInit) (by decide)

/-- C8: the converted `Init` container's `server_start_time` entry is
the RFC 3339 string of the record's timestamp, and on calendar-valid
timestamps that string determines the timestamp exactly (the rendering
is injective). -/
theorem c8_timestamp_rfc3339 (i : Init) :
    (Init.to_arma i).getField "server_start_time" =
      some (.str (toRfc3339 i.server_start_time)) ∧
    (∀ t t' : DateTimeUtc, t.Valid → t'.Valid →
      toRfc3339 t = toRfc3339 t' → t = t') :=
  ⟨rfl, fun t t' h h' heq => toRfc3339_inj t t' h h' heq⟩

/-- Witness for C8 at the spec's concrete `Init` scenario. -/
theorem c8_timestamp_rfc3339_witness :
    (Init.to_arma sampleInit).getField "server_start_time" =
      some (.str (toRfc3339 sampleInit.server_start_time)) ∧
    sampleTs = sampleTs :=
  ⟨(c8_timestamp_rfc3339 sampleInit).1,
   (c8_timestamp_rfc3339 sampleInit).2 sampleTs sampleTs (by decide) (by decide) rfl⟩

/-- C9: the `territory_admins` entry of a converted `PostInit` is the
host list of the same strings in the same order, and that conversion of
admin lists is injective — distinct lists (e.g. different orders or
kept duplicates) give distinct host values. -/
theorem c9_admins_order_preserved (p : PostInit) :
    (PostInit.to_arma p).getField "territory_admins" =
      some (.arr (p.territory_admins.map ArmaValue.str)) ∧
    (∀ l l' : List String,
      ArmaValue.arr (l.map ArmaValue.str) = ArmaValue.arr (l'.map ArmaValue.str)
        ↔ l = l') := by
  refine ⟨rfl, ?_⟩
  intro l l'
  constructor
  · intro h
    have h2 : l.map ArmaValue.str = l'.map ArmaValue.str := by injection h
    exact List.map_injective_iff.mpr (fun a b hab => by injection hab) h2
  · intro h
    rw [h]

/-- C10 counterexample: with a NaN `f32` field, the derived (IEEE)
equality makes `d.clone() == d` false — equality is not reflexive on
every payload value. -/
theorem c10_counterexample :
    Data.beq (Data.clone (Data.Init initNan)) (Data.Init initNan) = false := by
  decide

/-- C10 (amended): on every payload whose float fields are non-NaN (and
whose `Query` map keeps its unique-keys invariant), a clone compares
equal to the original and equality is reflexive; equality only ever
relates values of the same variant, comparing field contents
field-wise (IEEE semantics on floats). -/
theorem c10_clone_eq_nanfree (d : Data) (hn : NanFree d = true)
    (hk : KeysOk d) :
    Data.beq (Data.clone d) d = true ∧ Data.beq d d = true ∧
    (∀ d' : Data, Data.beq d d' = true → d.tag = d'.tag) := by
  have hc := beq_clone d hn hk
  have hr := beq_clone d hn hk
  rw [clone_eq d] at hr
  exact ⟨hc, hr, fun d' h => beq_tag d d' h⟩

/-- Witness for C10 (amended) on a concrete non-NaN `Init` payload. -/
theorem c10_clone_eq_nanfree_witness :
    Data.beq (Data.clone (Data.Init sampleInit)) (Data.Init sampleInit) = true ∧
    Data.beq (Data.Init sampleInit) (Data.Init sampleInit) = true ∧
    (∀ d' : Data, Data.beq (Data.Init sampleInit) d' = true →
      (Data.Init sampleInit).tag = d'.tag) :=
  c10_clone_eq_nanfree (Data.Init sampleInit) (by decide) (by decide)

end Esm
